import Mathlib

/-!
Verification of the client-side interview session code of the interviewai
repository.  The development shallowly embeds the three stateful pieces the
claims are about:

* `SpeechRecognitionService` (src/frontend/src/components/InterviewSetup.js):
  modelled as an explicit record `RecogState` together with a step function
  `recogStep` over delivered events (method calls, engine events and the two
  timer callbacks the service schedules).  Emitted callback invocations and
  engine requests are collected as a list of `RAction`.
* `SpeechSynthesisService.speak` handler wiring (same file).
* The `VoiceInterviewer` component (src/components/VoiceInterviewer.js, with
  the question-fetch retry loop) and the `InterviewContext` state updaters
  (src/context/InterviewContext.js), modelled as pure state transformers that
  additionally emit the gateway / speech requests they issue.

JavaScript strings become `String`, JS numbers used as counters become `Nat`,
`undefined`-able values become `Option`, and JS truthiness tests on strings
are embedded as emptiness tests.
-/

/-! ## Speech recognition session (SpeechRecognitionService) -/

/-- State of `SpeechRecognitionService`.  `savedCb` abstracts the identity of
the callback triple saved by `start` (`onTranscriptChange`/`onEnd`/`onError`);
`engineActive` models whether the underlying engine is currently running;
`restartPending` models the 300 ms `setTimeout` scheduled by `handleEnd` and
`softStopPending` the 200 ms `setTimeout` scheduled by `softStop`. -/
structure RecogState where
  isListening : Bool
  isRestarting : Bool
  transcript : String
  fullTranscript : String
  lang : String
  savedCb : Option Nat
  engineActive : Bool
  restartPending : Bool
  softStopPending : Bool
deriving Repr, DecidableEq

/-- Constructor state of the service. -/
def initRecog : RecogState :=
  { isListening := false
    isRestarting := false
    transcript := ""
    fullTranscript := ""
    lang := "en-US"
    savedCb := none
    engineActive := false
    restartPending := false
    softStopPending := false }

/-- The fixed `accentOptions` codes of the constructor. -/
def accentCodes : List String :=
  ["en-US", "en-GB", "en-IN", "en-AU", "en-ZA", "en-NZ"]

/-- Events delivered to the service: public method calls, engine events
(`onresult`/`onend`/`onerror`) and the two timer callbacks. -/
inductive REvent where
  | callStart (cb : Nat)
  | callStop
  | callSetAccent (code : String)
  | engineResult (resultIndex : Nat) (results : List (String × Bool))
  | engineEnd
  | engineError (msg : String)
  | restartTimer
  | softStopTimer
deriving Repr, DecidableEq

/-- Observable outputs: published transcripts, the `onEnd` / `onError`
callbacks, and requests made to the underlying engine. -/
inductive RAction where
  | publish (finalText interim : String)
  | ended (finalText : String)
  | errored (msg : String)
  | engineStart (lang : String)
  | engineStopReq
deriving Repr, DecidableEq

/-- Concatenation of the final segments of an event window, in order
(the `finalTranscript` accumulation of `handleResult`). -/
def finalsOf (rs : List (String × Bool)) : String :=
  rs.foldl (fun acc r => if r.2 then acc ++ r.1 else acc) ""

/-- Concatenation of the non-final segments of an event window
(the `interimTranscript` accumulation of `handleResult`). -/
def interimsOf (rs : List (String × Bool)) : String :=
  rs.foldl (fun acc r => if r.2 then acc else acc ++ r.1) ""

/-- `handleResult`: iterate from `event.resultIndex`, split into final and
interim segments, append the final batch (plus a space) to `fullTranscript`
when non-empty, replace the interim text wholesale, and publish. -/
def handleResultStep (s : RecogState) (resultIndex : Nat)
    (results : List (String × Bool)) : RecogState × List RAction :=
  let window := results.drop resultIndex
  let finalT := finalsOf window
  let interimT := interimsOf window
  let full := if finalT = "" then s.fullTranscript else s.fullTranscript ++ finalT ++ " "
  ({ s with fullTranscript := full, transcript := full },
   if s.savedCb.isSome then [RAction.publish full interimT] else [])

/-- Error message produced when `recognition.start()` throws inside
`start` (the engine is already running). -/
def startThrowMsg : String := "recognition has already started"

/-- Error message of the `catch` in the `handleEnd` restart timeout. -/
def restartFailMsg : String :=
  "Failed to restart speech recognition. Try stopping and starting again."

/-- The body of `start(onTranscriptChange, onEnd, onError)`: no-op when
already listening or restarting; otherwise save the callbacks, reset
`fullTranscript`, and try to start the engine, reporting the exception via
the freshly passed `onError` when the engine was already running. -/
def startImpl (s : RecogState) (cb : Option Nat) : RecogState × List RAction :=
  if s.isListening || s.isRestarting then (s, [])
  else
    let s1 := { s with savedCb := cb, fullTranscript := "" }
    if s1.engineActive then
      (s1, if cb.isSome then [RAction.errored startThrowMsg] else [])
    else
      ({ s1 with engineActive := true, isListening := true },
       [RAction.engineStart s1.lang])

/-- One step of the service: dispatch an event exactly as the source handlers
do. -/
def recogStep (s : RecogState) : REvent → RecogState × List RAction
  | .callStart cb => startImpl s (some cb)
  | .callStop =>
      -- stop(): clear the listening flag first, then request engine stop
      if s.isListening then
        ({ s with isListening := false }, [RAction.engineStopReq])
      else (s, [])
  | .callSetAccent code =>
      -- setAccent: validate, set lang, and when listening soft-stop and
      -- schedule the restart continuation (the 200 ms timeout)
      if accentCodes.contains code then
        let s1 := { s with lang := code }
        if s1.isListening then
          ({ s1 with isRestarting := true, softStopPending := true },
           [RAction.engineStopReq])
        else (s1, [])
      else (s, [])
  | .engineResult i rs => handleResultStep s i rs
  | .engineEnd =>
      -- the engine has stopped; then handleEnd runs
      let s0 := { s with engineActive := false }
      if s0.isRestarting then (s0, [])
      else if s0.isListening then
        ({ s0 with isRestarting := true, restartPending := true }, [])
      else if s0.savedCb.isSome then (s0, [RAction.ended s0.transcript])
      else (s0, [])
  | .engineError msg =>
      -- handleError: ignored while restarting, else forward and clear flag
      if s.isRestarting then (s, [])
      else
        ({ s with isListening := false },
         if s.savedCb.isSome then [RAction.errored msg] else [])
  | .restartTimer =>
      -- the 300 ms timeout scheduled by handleEnd
      if s.restartPending then
        let s1 := { s with restartPending := false }
        if s1.isListening then
          if s1.engineActive then
            ({ s1 with isListening := false, isRestarting := false },
             if s1.savedCb.isSome then [RAction.errored restartFailMsg] else [])
          else
            ({ s1 with engineActive := true, isRestarting := false },
             [RAction.engineStart s1.lang])
        else ({ s1 with isRestarting := false }, [])
      else (s, [])
  | .softStopTimer =>
      -- the 200 ms timeout scheduled by softStop: clear the restart flag and
      -- call start with the saved callbacks
      if s.softStopPending then
        let s1 := { s with softStopPending := false, isRestarting := false }
        startImpl s1 s1.savedCb
      else (s, [])

/-- Run the service over a list of delivered events, collecting outputs. -/
def recogRun (s : RecogState) : List REvent → RecogState × List RAction
  | [] => (s, [])
  | e :: rest =>
      let r1 := recogStep s e
      let r2 := recogRun r1.1 rest
      (r2.1, r1.2 ++ r2.2)

/-! ## Speech synthesis adapter (SpeechSynthesisService.speak) -/

/-- Terminal event the synthesis engine fires for one utterance: either the
utterance finished (`onend`) or a synthesis error occurred (`onerror`). -/
inductive UtterEvent where
  | ended
  | errored (msg : String)
deriving Repr, DecidableEq

/-- Invocations of the completion callback passed to `speak`. -/
inductive SynthCb where
  | completion
deriving Repr, DecidableEq

/-- The handler wiring installed by `speak`: `utterance.onend = onEnd`, and
the `onerror` handler logs and then also calls `onEnd()` so the flow is not
blocked. -/
def speakDispatch : UtterEvent → List SynthCb
  | .ended => [SynthCb.completion]
  | .errored _ => [SynthCb.completion]

/-! ## Interview context (InterviewContext.js) -/

/-- One entry of `interviewState.responses`, appended by `addResponse`. -/
structure RespRec where
  question : String
  answer : String
  evaluation : Int
  questionType : String
deriving Repr, DecidableEq

/-- The `interviewState` object of `InterviewContext` (the `results` payload,
which no claim touches, is elided). -/
structure InterviewState where
  status : String
  currentQuestion : String
  currentQuestionType : String
  currentQuestionIndex : Nat
  totalQuestions : Nat
  remainingQuestions : Nat
  responses : List RespRec
  error : Option String
  loading : Bool
deriving Repr, DecidableEq

/-- The initial / reset interview state. -/
def initInterview : InterviewState :=
  { status := "idle"
    currentQuestion := ""
    currentQuestionType := ""
    currentQuestionIndex := 0
    totalQuestions := 0
    remainingQuestions := 0
    responses := []
    error := none
    loading := false }

/-- `setCurrentQuestion(question, remaining, index, questionType)`:
`currentQuestionIndex` becomes `index` when defined, else the previous index
plus one, and `totalQuestions` is recomputed as `remaining + newIndex + 1`. -/
def setCurrentQuestion (s : InterviewState) (question : String)
    (remaining : Nat) (index : Option Nat) (questionType : String) :
    InterviewState :=
  let newIndex :=
    match index with
    | some i => i
    | none => s.currentQuestionIndex + 1
  { s with
      currentQuestion := question
      currentQuestionType := questionType
      remainingQuestions := remaining
      currentQuestionIndex := newIndex
      totalQuestions := remaining + newIndex + 1 }

/-- `addResponse`: append a response record, never mutating earlier ones. -/
def addResponse (s : InterviewState) (question answer : String)
    (evaluation : Int) (questionType : String) : InterviewState :=
  { s with
      responses := s.responses ++
        [{ question := question
           answer := answer
           evaluation := evaluation
           questionType := questionType }] }

/-! ## VoiceInterviewer component (src/components/VoiceInterviewer.js) -/

/-- Component-local state of `VoiceInterviewer` (the `speechState` object plus
the standalone `useState` hooks), together with the shared context state. -/
structure VIState where
  interview : InterviewState
  isReading : Bool
  listening : Bool
  transcript : String
  interimTranscript : String
  errorMessage : String
  isSubmitting : Bool
  retries : Nat
  questionFetched : Bool
  textInputMode : Bool
deriving Repr, DecidableEq

/-- Requests the component issues to its collaborators. -/
inductive VIAction where
  | gatewayFetch
  | gatewaySubmit (text : String)
  | speakText (text : String)
  | complete
  | notifyError (msg : String)
  | triggerFetch
  | recogStop
  | startListen
deriving Repr, DecidableEq

/-- Component state right after mount (`updateInterviewStatus('interviewing')`
has run, before the first fetch). -/
def mountVI : VIState :=
  { interview := { initInterview with status := "interviewing" }
    isReading := false
    listening := false
    transcript := ""
    interimTranscript := ""
    errorMessage := ""
    isSubmitting := false
    retries := 0
    questionFetched := false
    textInputMode := false }

/-- JS `String.prototype.trim()`: remove leading and trailing whitespace. -/
def jsTrim (s : String) : String :=
  ⟨((s.data.dropWhile Char.isWhitespace).reverse.dropWhile
      Char.isWhitespace).reverse⟩

/-- JS `x || d` on an optional string (both `undefined` and `""` fall back). -/
def jsOrStr (v : Option String) (d : String) : String :=
  match v with
  | some t => if t = "" then d else t
  | none => d

/-- JS `x || d` on an optional number (both `undefined` and `0` fall back). -/
def jsOrNat (v : Option Nat) (d : Nat) : Nat :=
  match v with
  | some n => if n = 0 then d else n
  | none => d

/-- Body of a `/get-question` response, with `undefined`-able fields. -/
structure QuestionPayload where
  question : Option String
  remaining : Nat
  questionIndex : Option Nat
  questionType : Option String
deriving Repr, DecidableEq

/-- Outcome of one awaited `getCurrentQuestion()` call: a parsed payload, or
a thrown error (network failure or non-OK HTTP status). -/
inductive FetchOutcome where
  | payload (p : QuestionPayload)
  | thrown (msg : String)
deriving Repr, DecidableEq

/-- The sentinel text the backend returns when no questions exist. -/
def noQuestionsMsg : String :=
  "No questions available. Please generate questions first."

/-- The JS guard `result.question && result.question !== noQuestionsMsg`. -/
def questionValid (p : QuestionPayload) : Bool :=
  match p.question with
  | none => false
  | some q => !(q = "") && !(q = noQuestionsMsg)

/-- The fatal message surfaced when the retry cap is reached (the thrown
message wrapped by the catch block). -/
def capErrorMsg : String :=
  "Error getting interview questions: Failed to get interview questions after multiple attempts. Please try again."

/-- `fetchNextQuestion()` of `VoiceInterviewer`: issues the gateway call and
then branches on the outcome exactly as the source does.  The `retries`
comparison uses the pre-call value (the stale closure value in the source),
while the stored counter is incremented via the functional update. -/
def fetchNextQuestion (s : VIState) (outcome : FetchOutcome) :
    VIState × List VIAction :=
  let s0 := { s with interview := { s.interview with loading := true } }
  match outcome with
  | .thrown msg =>
      let emsg := "Error getting interview questions: " ++ msg
      ({ s0 with interview :=
          { s0.interview with loading := false, error := some emsg } },
       [VIAction.gatewayFetch, VIAction.notifyError emsg])
  | .payload p =>
      if questionValid p then
        let q := p.question.getD ""
        let iv := setCurrentQuestion s0.interview q p.remaining
          (some (jsOrNat p.questionIndex 0)) (jsOrStr p.questionType "general")
        ({ s0 with
            interview := { iv with loading := false }
            questionFetched := true
            isReading := true },
         [VIAction.gatewayFetch, VIAction.speakText q])
      else if p.remaining = 0 && decide (0 < s0.interview.currentQuestionIndex) then
        (s0, [VIAction.gatewayFetch, VIAction.complete])
      else
        let pre := s.retries
        let s1 := { s0 with
          retries := pre + 1
          interview := { s0.interview with loading := false } }
        if 4 ≤ pre then
          ({ s1 with interview :=
              { s1.interview with error := some capErrorMsg } },
           [VIAction.gatewayFetch, VIAction.notifyError capErrorMsg])
        else (s1, [VIAction.gatewayFetch])

/-- The retry `useEffect` guard: a delayed re-fetch is scheduled exactly when
`retries > 0 && !questionFetched && retries < 5`. -/
def retrySched (s : VIState) : Bool :=
  decide (0 < s.retries) && !s.questionFetched && decide (s.retries < 5)

/-- The fixed retry delay passed to `setTimeout` (milliseconds). -/
def retryDelayMs : Nat := 2000

/-- Closed loop of the fetch/retry cycle under a fixed fetch outcome: fetch,
then, as long as the retry effect schedules another attempt, fetch again
(fuel bounds the recursion). -/
def runFetchLoop (outcome : FetchOutcome) : Nat → VIState → VIState × List VIAction
  | 0, s => (s, [])
  | Nat.succ fuel, s =>
      let r1 := fetchNextQuestion s outcome
      if retrySched r1.1 then
        let r2 := runFetchLoop outcome fuel r1.1
        (r2.1, r1.2 ++ r2.2)
      else r1

/-- Body of a `/submit-response` response, or a thrown error. -/
inductive SubmitOutcome where
  | payload (evaluation : Int) (questionType : Option String)
      (interviewComplete : Bool)
  | thrown (msg : String)
deriving Repr, DecidableEq

/-- `handleSubmitResponse()` of `VoiceInterviewer`: reject a blank transcript
locally; otherwise stop listening when active, submit, and on success append
the response, clear the transcript, reset the per-question flags, and either
complete or trigger the next fetch. -/
def handleSubmitResponse (s : VIState) (outcome : SubmitOutcome) :
    VIState × List VIAction :=
  if jsTrim s.transcript = "" then
    ({ s with interview :=
        { s.interview with error := some "Please provide a response" } },
     [VIAction.notifyError "Please provide a response"])
  else
    let stopActs := if s.listening then [VIAction.recogStop] else []
    let s1 := { s with listening := false, isSubmitting := true }
    match outcome with
    | .thrown msg =>
        let emsg := "Error submitting your answer: " ++ msg
        ({ s1 with
            interview := { s1.interview with error := some emsg }
            isSubmitting := false },
         stopActs ++ [VIAction.gatewaySubmit s.transcript, VIAction.notifyError emsg])
    | .payload evaluation questionType interviewComplete =>
        let iv := addResponse s1.interview s1.interview.currentQuestion
          s.transcript evaluation
          (jsOrStr questionType s.interview.currentQuestionType)
        let s2 := { s1 with
          interview := iv
          transcript := ""
          interimTranscript := ""
          questionFetched := false
          retries := 0
          textInputMode := false }
        if interviewComplete then
          ({ s2 with
              interview := { s2.interview with status := "completed" }
              isSubmitting := false },
           stopActs ++ [VIAction.gatewaySubmit s.transcript, VIAction.complete])
        else
          ({ s2 with isSubmitting := false },
           stopActs ++ [VIAction.gatewaySubmit s.transcript, VIAction.triggerFetch])

/-- The completion callback `readQuestionAloud` passes to `speak`: clear the
reading flag and, outside text-input mode, start listening. -/
def readAloudComplete (s : VIState) : VIState × List VIAction :=
  ({ s with isReading := false },
   if s.textInputMode then [] else [VIAction.startListen])

/-- The local validation of `submitResponse` in src/services/api.js: a blank
response or a missing session id is rejected before any network request; the
returned list holds the network request made otherwise. -/
def submitResponseApi (response sessionId : String) :
    Except String (List VIAction) :=
  if jsTrim response = "" then Except.error "No response provided"
  else if sessionId = "" then Except.error "Session ID is required"
  else Except.ok [VIAction.gatewaySubmit response]

/-! ## Helper functions used by the statements -/

/-- Recognisers for the output actions. -/
def isEnded : RAction → Bool
  | .ended _ => true
  | _ => false

def isEngStart : RAction → Bool
  | .engineStart _ => true
  | _ => false

def isFetchAct : VIAction → Bool
  | .gatewayFetch => true
  | _ => false

def isSubmitAct : VIAction → Bool
  | .gatewaySubmit _ => true
  | _ => false

def isErrAct : VIAction → Bool
  | .notifyError _ => true
  | _ => false

/-- One step of the per-event `fullTranscript` accumulation of
`handleResult` (append the final batch plus a space when non-empty). -/
def accumStep (acc : String) (e : Nat × List (String × Bool)) : String :=
  let f := finalsOf (e.2.drop e.1)
  if f = "" then acc else acc ++ f ++ " "

/-- The accumulated `fullTranscript` after a sequence of result events. -/
def accumFinal (acc : String) (evs : List (Nat × List (String × Bool))) : String :=
  evs.foldl accumStep acc

/-- The sequence of `(finalText, interimText)` publications produced by a
sequence of result events, starting from accumulated text `acc`. -/
def publishTrace (acc : String) : List (Nat × List (String × Bool)) → List RAction
  | [] => []
  | e :: rest =>
      let acc2 := accumStep acc e
      RAction.publish acc2 (interimsOf (e.2.drop e.1)) :: publishTrace acc2 rest

/-- Events the engine itself (or a timer the service armed) delivers, as
opposed to explicit method calls on the service. -/
def engineDriven : REvent → Bool
  | .engineResult _ _ => true
  | .engineEnd => true
  | .engineError _ => true
  | .restartTimer => true
  | _ => false

/-! ## Concrete states and traces used by the statements -/

/-- The service right after a successful `start` from the constructor
state. -/
def startedRecog : RecogState := (recogStep initRecog (REvent.callStart 0)).1

/-- A `/get-question` payload carrying the no-questions sentinel (a response
that is neither a valid question nor, from a fresh session, the exhaustion
signal). -/
def failPayload : QuestionPayload :=
  { question := some noQuestionsMsg
    remaining := 3
    questionIndex := none
    questionType := none }

/-- A valid question payload (the happy-path scenario of the spec). -/
def okPayload : QuestionPayload :=
  { question := some "Describe REST vs RPC"
    remaining := 2
    questionIndex := some 0
    questionType := some "technical" }

/-- Component state after three consecutive failed fetch attempts. -/
def streakVI : VIState := { mountVI with retries := 3 }

/-- Component state with a fetch outstanding (`loading = true`) and a
submission pending (`isSubmitting = true`). -/
def busyVI : VIState :=
  { mountVI with
      interview := { mountVI.interview with loading := true }
      isSubmitting := true
      transcript := "an answer" }

/-- The accent-change scenario trace: start listening, accumulate the final
segment "partial answer", call `setAccent("en-GB")`, let the engine quiesce
(its end event arrives during the 200 ms soft-stop wait), then fire the
soft-stop timer whose continuation calls `start` again. -/
def accentTrace : List REvent :=
  [REvent.callStart 0,
   REvent.engineResult 0 [("partial answer", true)],
   REvent.callSetAccent "en-GB",
   REvent.engineEnd,
   REvent.softStopTimer]

/-! ## Helper lemmas -/

theorem recogRun_append (s : RecogState) (l1 l2 : List REvent) :
    recogRun s (l1 ++ l2) =
      ((recogRun (recogRun s l1).1 l2).1,
       (recogRun s l1).2 ++ (recogRun (recogRun s l1).1 l2).2) := by
  induction l1 generalizing s with
  | nil => simp [recogRun]
  | cons e rest ih => simp [recogRun, ih, List.append_assoc]

theorem recogRun_cons (s : RecogState) (e : REvent) (rest : List REvent) :
    recogRun s (e :: rest) =
      ((recogRun (recogStep s e).1 rest).1,
       (recogStep s e).2 ++ (recogRun (recogStep s e).1 rest).2) := rfl

theorem recogStep_result (s : RecogState) (c : Nat) (h : s.savedCb = some c)
    (i : Nat) (rs : List (String × Bool)) :
    recogStep s (.engineResult i rs) =
      ({ s with
          fullTranscript := accumStep s.fullTranscript (i, rs)
          transcript := accumStep s.fullTranscript (i, rs) },
       [RAction.publish (accumStep s.fullTranscript (i, rs))
          (interimsOf (rs.drop i))]) := by
  simp [recogStep, handleResultStep, accumStep, h]

/-- Running a block of result events from a state with saved callbacks and a
consistent transcript snapshot: the accumulator folds over the events and one
publication per event is emitted. -/
theorem recogRun_results (c : Nat) (evs : List (Nat × List (String × Bool))) :
    ∀ s : RecogState, s.savedCb = some c → s.transcript = s.fullTranscript →
    recogRun s (evs.map fun e => REvent.engineResult e.1 e.2) =
      ({ s with
          fullTranscript := accumFinal s.fullTranscript evs
          transcript := accumFinal s.fullTranscript evs },
       publishTrace s.fullTranscript evs) := by
  induction evs with
  | nil =>
      intro s h ht
      cases s
      simp_all [recogRun, accumFinal, publishTrace]
  | cons e rest ih =>
      intro s h ht
      simp only [List.map_cons, recogRun]
      rw [recogStep_result s c h e.1 e.2]
      rw [ih _ (by simp [h]) (by simp)]
      simp [accumFinal, publishTrace]

theorem accumFinal_concat (acc : String)
    (evs : List (Nat × List (String × Bool))) (e : Nat × List (String × Bool)) :
    accumFinal acc (evs ++ [e]) = accumStep (accumFinal acc evs) e := by
  simp [accumFinal, List.foldl_append]

theorem publishTrace_concat (acc : String)
    (evs : List (Nat × List (String × Bool))) (e : Nat × List (String × Bool)) :
    publishTrace acc (evs ++ [e]) =
      publishTrace acc evs ++
        [RAction.publish (accumFinal acc (evs ++ [e]))
          (interimsOf (e.2.drop e.1))] := by
  induction evs generalizing acc with
  | nil => simp [publishTrace, accumFinal]
  | cons x rest ih => simp [publishTrace, ih, accumFinal]

theorem publishTrace_filter_ended (acc : String)
    (evs : List (Nat × List (String × Bool))) :
    (publishTrace acc evs).filter isEnded = [] := by
  induction evs generalizing acc with
  | nil => simp [publishTrace]
  | cons x rest ih => simp [publishTrace, isEnded, ih]

theorem publishTrace_filter_engStart (acc : String)
    (evs : List (Nat × List (String × Bool))) :
    (publishTrace acc evs).filter isEngStart = [] := by
  induction evs generalizing acc with
  | nil => simp [publishTrace]
  | cons x rest ih => simp [publishTrace, isEngStart, ih]

/-- Engine-driven events (results, ends, errors, the restart timer) can only
extend `fullTranscript`, never shorten or reset it. -/
theorem recogStep_engineDriven_mono (s : RecogState) (e : REvent)
    (h : engineDriven e = true) :
    ∃ t, (recogStep s e).1.fullTranscript = s.fullTranscript ++ t := by
  cases e with
  | engineResult i rs =>
      by_cases hf : finalsOf (rs.drop i) = ""
      · exact ⟨"", by simp [recogStep, handleResultStep, hf, String.append_empty]⟩
      · exact ⟨finalsOf (rs.drop i) ++ " ",
          by simp [recogStep, handleResultStep, hf, String.append_assoc]⟩
  | engineEnd =>
      refine ⟨"", ?_⟩
      simp only [recogStep]
      by_cases h1 : s.isRestarting <;> by_cases h2 : s.isListening <;>
        by_cases h3 : s.savedCb.isSome <;>
        simp [h1, h2, h3, String.append_empty]
  | engineError msg =>
      refine ⟨"", ?_⟩
      by_cases h1 : s.isRestarting <;> simp [recogStep, h1, String.append_empty]
  | restartTimer =>
      refine ⟨"", ?_⟩
      simp only [recogStep]
      by_cases h1 : s.restartPending <;> by_cases h2 : s.isListening <;>
        by_cases h3 : s.engineActive <;>
        simp [h1, h2, h3, String.append_empty]
  | callStart cb => simp [engineDriven] at h
  | callStop => simp [engineDriven] at h
  | callSetAccent code => simp [engineDriven] at h
  | softStopTimer => simp [engineDriven] at h

/-- Monotonicity of `fullTranscript` over any engine-driven event sequence. -/
theorem recogRun_engineDriven_mono (evs : List REvent) :
    ∀ s : RecogState, (∀ e ∈ evs, engineDriven e = true) →
    ∃ t, (recogRun s evs).1.fullTranscript = s.fullTranscript ++ t := by
  induction evs with
  | nil => intro s _; exact ⟨"", by simp [recogRun, String.append_empty]⟩
  | cons e rest ih =>
      intro s h
      obtain ⟨t1, h1⟩ := recogStep_engineDriven_mono s e (h e (by simp))
      obtain ⟨t2, h2⟩ := ih (recogStep s e).1 (fun x hx => h x (by simp [hx]))
      refine ⟨t1 ++ t2, ?_⟩
      simp only [recogRun]
      rw [h2, h1, String.append_assoc]

/-! ## Claim theorems -/

/-- Claim C1, corrected, counterexample: a single result event whose only
segment is the final segment "hello" leaves the published `finalText` equal
to "hello " — the handler appends a trailing space after each non-empty final
batch — and not to "hello", the plain concatenation of the final segments the
claim asserts. -/
theorem c1_counterexample :
    (recogRun initRecog
        [REvent.callStart 0,
         REvent.engineResult 0 [("hello", true)]]).1.fullTranscript = "hello " ∧
    ¬ (recogRun initRecog
        [REvent.callStart 0,
         REvent.engineResult 0 [("hello", true)]]).1.fullTranscript = "hello" := by
  decide

/-- Claim C1 (amended): for every sequence of result events delivered within
one listening session, the published `finalText` equals the in-order
concatenation of each event's final segments with a single space appended
after each event's non-empty final batch, and each publication's interim text
is exactly that event's non-final segments, so the last publication carries
exactly the most recent event's interim data and nothing earlier. -/
theorem c1_transcript_accumulation (s : RecogState) (c : Nat)
    (h : s.savedCb = some c) (ht : s.transcript = s.fullTranscript)
    (evs : List (Nat × List (String × Bool))) (e : Nat × List (String × Bool)) :
    (recogRun s ((evs ++ [e]).map fun x => REvent.engineResult x.1 x.2)).1.fullTranscript
        = accumFinal s.fullTranscript (evs ++ [e]) ∧
    (recogRun s ((evs ++ [e]).map fun x => REvent.engineResult x.1 x.2)).2
        = publishTrace s.fullTranscript (evs ++ [e]) ∧
    ((recogRun s ((evs ++ [e]).map fun x => REvent.engineResult x.1 x.2)).2).getLast?
        = some (RAction.publish (accumFinal s.fullTranscript (evs ++ [e]))
            (interimsOf (e.2.drop e.1))) := by
  rw [recogRun_results c (evs ++ [e]) s h ht]
  refine ⟨rfl, rfl, ?_⟩
  rw [publishTrace_concat]
  simp

theorem c1_witness :
    (recogRun startedRecog
        ((([] : List (Nat × List (String × Bool)))
            ++ [(0, [("hi", true), ("there", false)])]).map
          fun (x : Nat × List (String × Bool)) =>
            REvent.engineResult x.1 x.2)).1.fullTranscript
      = accumFinal startedRecog.fullTranscript
          (([] : List (Nat × List (String × Bool)))
            ++ [(0, [("hi", true), ("there", false)])]) :=
  (c1_transcript_accumulation startedRecog 0 (by decide) (by decide)
    [] (0, [("hi", true), ("there", false)])).1

/-- Claim C2, corrected, counterexample: after the final segment "hello" is
received, the engine ends on its own and the session auto-restarts, the
accumulated `finalText` equals "hello " (the handler appended a trailing
space when committing the batch), not "hello" as the claim states. -/
theorem c2_counterexample :
    (recogRun initRecog
        [REvent.callStart 1,
         REvent.engineResult 0 [("hello", true)],
         REvent.engineEnd,
         REvent.restartTimer]).1.fullTranscript = "hello " ∧
    ¬ (recogRun initRecog
        [REvent.callStart 1,
         REvent.engineResult 0 [("hello", true)],
         REvent.engineEnd,
         REvent.restartTimer]).1.fullTranscript = "hello" := by
  decide

/-- Claim C2 (amended): within one continuous listening session `finalText`
is monotonically non-decreasing — every engine-driven event (results, engine
ends, errors, the automatic restart timer) only extends it; in the concrete
scenario a final segment "hello" leaves `finalText` = "hello " and after the
engine-initiated end plus automatic restart (listening and the engine active
again) it still equals "hello "; and an explicit `start()` call on an idle
service resets `finalText` to empty — it is the only reset. -/
theorem c2_final_monotone (s sIdle : RecogState) (evs : List REvent) (cb : Nat)
    (h : ∀ e ∈ evs, engineDriven e = true)
    (h1 : sIdle.isListening = false) (h2 : sIdle.isRestarting = false) :
    (∃ t, (recogRun s evs).1.fullTranscript = s.fullTranscript ++ t) ∧
    ((recogRun initRecog
        [REvent.callStart 0,
         REvent.engineResult 0 [("hello", true)]]).1.fullTranscript = "hello " ∧
     (recogRun initRecog
        [REvent.callStart 0,
         REvent.engineResult 0 [("hello", true)],
         REvent.engineEnd,
         REvent.restartTimer]).1.fullTranscript = "hello " ∧
     (recogRun initRecog
        [REvent.callStart 0,
         REvent.engineResult 0 [("hello", true)],
         REvent.engineEnd,
         REvent.restartTimer]).1.isListening = true ∧
     (recogRun initRecog
        [REvent.callStart 0,
         REvent.engineResult 0 [("hello", true)],
         REvent.engineEnd,
         REvent.restartTimer]).1.engineActive = true) ∧
    (recogStep sIdle (REvent.callStart cb)).1.fullTranscript = "" := by
  refine ⟨recogRun_engineDriven_mono evs s h, by decide, ?_⟩
  simp only [recogStep, startImpl, h1, h2, Bool.or_self]
  by_cases h3 : sIdle.engineActive <;> simp [h3]

theorem c2_witness :
    ∃ t, (recogRun startedRecog
        [REvent.engineEnd, REvent.restartTimer]).1.fullTranscript
      = startedRecog.fullTranscript ++ t :=
  (c2_final_monotone startedRecog initRecog
    [REvent.engineEnd, REvent.restartTimer] 0
    (by decide) (by decide) (by decide)).1

/-- Claim C3, code bug: `setAccent("en-GB")` while Listening performs the
soft stop and applies the new locale, and `finalText` survives unchanged, but
the restart the continuation attempts is a no-op — `start()` returns early
because `isListening` was never cleared during the soft stop — so after the
cycle the engine is stopped (`engineActive = false`, the only engine start in
the whole trace is the initial one) even though the service still reports
`isListening = true`: listening does not actually resume under the new
locale, contradicting the claim and the restart intent evident in the
source. -/
theorem c3_accent_restart_bug :
    (recogRun initRecog accentTrace).1.fullTranscript = "partial answer " ∧
    (recogRun initRecog accentTrace).1.lang = "en-GB" ∧
    (recogRun initRecog accentTrace).1.isListening = true ∧
    (recogRun initRecog accentTrace).1.engineActive = false ∧
    ((recogRun initRecog accentTrace).2.filter isEngStart).length = 1 ∧
    (recogRun initRecog
        [REvent.callStart 0, REvent.callSetAccent "xx-XX"]).1 =
      (recogRun initRecog [REvent.callStart 0]).1 := by
  decide

/-- Claim C6, confirmed: in a session started from the constructor state, an
explicit `stop()` followed by the engine's end event invokes `onEnd` exactly
once, with the accumulated `finalText`, schedules no automatic restart (no
pending restart timer, no second engine start in the whole trace), and a
further `stop()` on the already-stopped service is a no-op. -/
theorem c6_stop_then_end (cb : Nat) (evs : List (Nat × List (String × Bool))) :
    ((recogRun initRecog
        (REvent.callStart cb ::
          ((evs.map fun e => REvent.engineResult e.1 e.2) ++
            [REvent.callStop, REvent.engineEnd]))).2.filter isEnded)
        = [RAction.ended (accumFinal "" evs)] ∧
    ((recogRun initRecog
        (REvent.callStart cb ::
          ((evs.map fun e => REvent.engineResult e.1 e.2) ++
            [REvent.callStop, REvent.engineEnd]))).2.filter isEngStart).length = 1 ∧
    (recogRun initRecog
        (REvent.callStart cb ::
          ((evs.map fun e => REvent.engineResult e.1 e.2) ++
            [REvent.callStop, REvent.engineEnd]))).1.isListening = false ∧
    (recogRun initRecog
        (REvent.callStart cb ::
          ((evs.map fun e => REvent.engineResult e.1 e.2) ++
            [REvent.callStop, REvent.engineEnd]))).1.restartPending = false ∧
    (recogRun initRecog
        (REvent.callStart cb ::
          ((evs.map fun e => REvent.engineResult e.1 e.2) ++
            [REvent.callStop, REvent.engineEnd]))).1.isRestarting = false ∧
    recogStep (recogRun initRecog
        (REvent.callStart cb ::
          ((evs.map fun e => REvent.engineResult e.1 e.2) ++
            [REvent.callStop, REvent.engineEnd]))).1 REvent.callStop
      = ((recogRun initRecog
        (REvent.callStart cb ::
          ((evs.map fun e => REvent.engineResult e.1 e.2) ++
            [REvent.callStop, REvent.engineEnd]))).1, []) := by
  have hstart : recogStep initRecog (REvent.callStart cb) =
      (⟨true, false, "", "", "en-US", some cb, true, false, false⟩,
       [RAction.engineStart "en-US"]) := by
    simp [recogStep, startImpl, initRecog]
  have hres := recogRun_results cb evs
    ⟨true, false, "", "", "en-US", some cb, true, false, false⟩ rfl rfl
  have htail : recogRun
      ({ (⟨true, false, "", "", "en-US", some cb, true, false, false⟩ : RecogState) with
          fullTranscript := accumFinal "" evs
          transcript := accumFinal "" evs })
      [REvent.callStop, REvent.engineEnd] =
      (⟨false, false, accumFinal "" evs, accumFinal "" evs, "en-US", some cb,
        false, false, false⟩,
       [RAction.engineStopReq, RAction.ended (accumFinal "" evs)]) := by
    simp [recogRun, recogStep]
  have hrun : recogRun initRecog
      (REvent.callStart cb ::
        ((evs.map fun e => REvent.engineResult e.1 e.2) ++
          [REvent.callStop, REvent.engineEnd])) =
      (⟨false, false, accumFinal "" evs, accumFinal "" evs, "en-US", some cb,
        false, false, false⟩,
       RAction.engineStart "en-US" ::
         (publishTrace "" evs ++
           [RAction.engineStopReq, RAction.ended (accumFinal "" evs)])) := by
    rw [recogRun_cons, hstart]
    simp only []
    rw [recogRun_append, hres, htail]
    simp
  rw [hrun]
  refine ⟨?_, ?_, rfl, rfl, rfl, ?_⟩
  · simp [isEnded, List.filter_append, publishTrace_filter_ended]
  · simp [isEngStart, List.filter_append, publishTrace_filter_engStart]
  · simp [recogStep]

/-- Claim C7, confirmed: for every terminal utterance event the completion
callback passed to `speak` is invoked exactly once — the error handler also
calls it, so a synthesis error is treated as "done" and the interview flow
proceeds exactly as on success: the reading flag is cleared and (outside
text-input mode) listening is started. -/
theorem c7_speak_completion (e : UtterEvent) (s : VIState) (msg : String) :
    (speakDispatch e).length = 1 ∧
    speakDispatch (UtterEvent.errored msg) = speakDispatch UtterEvent.ended ∧
    ((speakDispatch e).foldl (fun st _ => (readAloudComplete st).1) s)
      = { s with isReading := false } := by
  refine ⟨?_, rfl, ?_⟩
  · cases e <;> rfl
  · cases e <;> simp [speakDispatch, readAloudComplete]

/-- Claim C10, confirmed: `setCurrentQuestion` with a defined index sets
`currentQuestionIndex = index` and `totalQuestions = remaining + index + 1`;
with an undefined index it advances the index by one and recomputes the
total from the new index; in both cases the resulting state satisfies
`totalQuestions = remainingQuestions + currentQuestionIndex + 1`. -/
theorem c10_set_question (s : InterviewState) (q : String) (remaining i : Nat)
    (qType : String) :
    (setCurrentQuestion s q remaining (some i) qType).totalQuestions
        = remaining + i + 1 ∧
    (setCurrentQuestion s q remaining (some i) qType).currentQuestionIndex = i ∧
    (setCurrentQuestion s q remaining none qType).currentQuestionIndex
        = s.currentQuestionIndex + 1 ∧
    (setCurrentQuestion s q remaining none qType).totalQuestions
        = remaining + (s.currentQuestionIndex + 1) + 1 ∧
    (∀ io : Option Nat,
      (setCurrentQuestion s q remaining io qType).totalQuestions
        = (setCurrentQuestion s q remaining io qType).remainingQuestions
          + (setCurrentQuestion s q remaining io qType).currentQuestionIndex + 1) := by
  refine ⟨rfl, rfl, rfl, rfl, ?_⟩
  intro io
  cases io <;> rfl

/-- Claim C4, corrected, counterexample: a fetch that throws (network failure
or non-OK HTTP status) is an outcome that is neither a valid question nor the
exhaustion signal, yet it does not increment the RetryCounter (retries stays
0, not 1 as the claim requires) and schedules no retry — the catch branch
surfaces an error notification immediately on this first failure. -/
theorem c4_counterexample :
    (fetchNextQuestion mountVI (FetchOutcome.thrown "network failure")).1.retries = 0 ∧
    ¬ (fetchNextQuestion mountVI (FetchOutcome.thrown "network failure")).1.retries
        = mountVI.retries + 1 ∧
    retrySched (fetchNextQuestion mountVI (FetchOutcome.thrown "network failure")).1
      = false ∧
    ((fetchNextQuestion mountVI
        (FetchOutcome.thrown "network failure")).2.filter isErrAct).length = 1 := by
  decide

/-- Claim C4 (amended): every fetch that completes with a payload that is
neither a valid question nor the exhaustion signal increments the
RetryCounter (a thrown fetch error instead surfaces an error immediately
without incrementing); below the cap no error is surfaced and the retry
effect schedules another attempt after the fixed 2000 ms delay exactly when
`0 < retries < 5` with no question fetched; at the cap (pre-call retries ≥ 4)
exactly one fatal notification is emitted; and five consecutive failing
payload fetches from mount perform exactly five gateway calls, produce
exactly one fatal error notification, and schedule no further attempt. -/
theorem c4_retry_loop (s : VIState) (p : QuestionPayload)
    (hq : questionValid p = false)
    (hx : ¬ (p.remaining = 0 ∧ 0 < s.interview.currentQuestionIndex)) :
    (fetchNextQuestion s (FetchOutcome.payload p)).1.retries = s.retries + 1 ∧
    (s.retries < 4 →
      (fetchNextQuestion s (FetchOutcome.payload p)).2 = [VIAction.gatewayFetch]) ∧
    (4 ≤ s.retries →
      (fetchNextQuestion s (FetchOutcome.payload p)).2
        = [VIAction.gatewayFetch, VIAction.notifyError capErrorMsg]) ∧
    retryDelayMs = 2 * 1000 ∧
    (∀ t : VIState, retrySched t = true ↔
      (0 < t.retries ∧ t.questionFetched = false ∧ t.retries < 5)) ∧
    ((((runFetchLoop (FetchOutcome.payload failPayload) 10 mountVI).2.filter
        isFetchAct).length = 5) ∧
     (((runFetchLoop (FetchOutcome.payload failPayload) 10 mountVI).2.filter
        isErrAct).length = 1) ∧
     retrySched (runFetchLoop (FetchOutcome.payload failPayload) 10 mountVI).1 = false) := by
  have hcond : (decide (p.remaining = 0)
      && decide (0 < s.interview.currentQuestionIndex)) = false := by
    by_cases h0 : p.remaining = 0
    · have hni : ¬ 0 < s.interview.currentQuestionIndex := fun hlt => hx ⟨h0, hlt⟩
      simp [h0, hni]
    · simp [h0]
  refine ⟨?_, ?_, ?_, rfl, ?_, by decide⟩
  · by_cases h4 : 4 ≤ s.retries <;> simp [fetchNextQuestion, hq, hcond, h4]
  · intro h5
    simp [fetchNextQuestion, hq, hcond, show ¬ 4 ≤ s.retries by omega]
  · intro h5
    simp [fetchNextQuestion, hq, hcond, h5]
  · intro t
    simp [retrySched, and_assoc]

theorem c4_witness :
    (fetchNextQuestion mountVI (FetchOutcome.payload failPayload)).1.retries
      = mountVI.retries + 1 :=
  (c4_retry_loop mountVI failPayload (by decide) (by decide)).1

/-- Claim C5, corrected, counterexample: in a state with a fetch outstanding
(`loading = true`) and a submission pending (`isSubmitting = true`), a call
to `fetchNextQuestion` is not ignored — it issues a gateway fetch — and a
call to `handleSubmitResponse` likewise issues a gateway submission:
the operations contain no coalescing or mutual-exclusion guard. -/
theorem c5_counterexample :
    busyVI.interview.loading = true ∧
    busyVI.isSubmitting = true ∧
    ((fetchNextQuestion busyVI
        (FetchOutcome.thrown "pending")).2.filter isFetchAct).length = 1 ∧
    ((handleSubmitResponse busyVI
        (SubmitOutcome.payload 7 none false)).2.filter isSubmitAct).length = 1 := by
  decide

/-- Claim C5 (amended): the operations perform no coalescing — every call to
`fetchNextQuestion`, whatever the component state (in particular while a
fetch or a submission is outstanding), issues exactly one gateway fetch, and
every call to `handleSubmitResponse` with a non-blank transcript issues
exactly one gateway submission; overlap is prevented only by the UI layer
disabling its controls, not by the operations themselves. -/
theorem c5_no_coalescing (s t : VIState) (o : FetchOutcome) (o2 : SubmitOutcome)
    (h : ¬ jsTrim t.transcript = "") :
    ((fetchNextQuestion s o).2.filter isFetchAct).length = 1 ∧
    ((handleSubmitResponse t o2).2.filter isSubmitAct).length = 1 := by
  constructor
  · cases o with
    | thrown msg => simp [fetchNextQuestion, isFetchAct]
    | payload p =>
        by_cases h1 : questionValid p
        · simp [fetchNextQuestion, h1, isFetchAct]
        · by_cases h2 : (decide (p.remaining = 0)
              && decide (0 < s.interview.currentQuestionIndex)) = true
          · simp [fetchNextQuestion, h1, h2, isFetchAct]
          · by_cases h3 : 4 ≤ s.retries <;>
              simp [fetchNextQuestion, h1, h2, h3, isFetchAct]
  · cases o2 with
    | thrown msg =>
        by_cases hl : t.listening <;>
          simp [handleSubmitResponse, h, hl, isSubmitAct]
    | payload ev qt ic =>
        by_cases hl : t.listening <;> by_cases hc : ic <;>
          simp [handleSubmitResponse, h, hl, hc, isSubmitAct]

theorem c5_witness :
    ((fetchNextQuestion busyVI (FetchOutcome.payload okPayload)).2.filter
        isFetchAct).length = 1 ∧
    ((handleSubmitResponse busyVI (SubmitOutcome.payload 7 none true)).2.filter
        isSubmitAct).length = 1 :=
  c5_no_coalescing busyVI busyVI (FetchOutcome.payload okPayload)
    (SubmitOutcome.payload 7 none true) (by decide)

/-- Claim C8, corrected, counterexample: after a streak of three failed
attempts (`retries = 3`), a successful fetch of a valid question leaves the
RetryCounter at 3 — it is not reset to 0 on a successful fetch as the claim
states. -/
theorem c8_counterexample :
    streakVI.retries = 3 ∧
    questionValid okPayload = true ∧
    (fetchNextQuestion streakVI (FetchOutcome.payload okPayload)).1.retries = 3 ∧
    ¬ (fetchNextQuestion streakVI (FetchOutcome.payload okPayload)).1.retries = 0 := by
  decide

/-- Claim C8 (amended): a successful question fetch leaves the RetryCounter
unchanged; the counter is instead reset to 0 by every successful submission
(which precedes the next question cycle's fetch) and is 0 in the freshly
mounted (restarted) component, so a failure streak is cleared before each
subsequent fetch cycle rather than on the successful fetch itself. -/
theorem c8_retry_reset (s t : VIState) (p : QuestionPayload) (ev : Int)
    (qt : Option String) (ic : Bool)
    (hp : questionValid p = true) (ht : ¬ jsTrim t.transcript = "") :
    (fetchNextQuestion s (FetchOutcome.payload p)).1.retries = s.retries ∧
    (handleSubmitResponse t (SubmitOutcome.payload ev qt ic)).1.retries = 0 ∧
    mountVI.retries = 0 := by
  refine ⟨?_, ?_, rfl⟩
  · simp [fetchNextQuestion, hp]
  · by_cases hl : t.listening <;> by_cases hc : ic <;>
      simp [handleSubmitResponse, ht, hl, hc]

theorem c8_witness :
    (fetchNextQuestion streakVI (FetchOutcome.payload okPayload)).1.retries
        = streakVI.retries ∧
    (handleSubmitResponse busyVI (SubmitOutcome.payload 7 none false)).1.retries
        = 0 :=
  ⟨(c8_retry_reset streakVI busyVI okPayload 7 none false
      (by decide) (by decide)).1,
   (c8_retry_reset streakVI busyVI okPayload 7 none false
      (by decide) (by decide)).2.1⟩

/-- Claim C9, confirmed: a submission whose transcript trims to the empty
string is rejected locally — no gateway submission is issued, the action
trace holds only the user-facing error notification, and the state is
unchanged apart from the error message; the api-layer `submitResponse` guard
likewise throws "No response provided" before any network request. -/
theorem c9_empty_submit (s : VIState) (o : SubmitOutcome) (r sid : String)
    (h : jsTrim s.transcript = "") (hr : jsTrim r = "") :
    (handleSubmitResponse s o).1
        = { s with interview :=
            { s.interview with error := some "Please provide a response" } } ∧
    (handleSubmitResponse s o).2
        = [VIAction.notifyError "Please provide a response"] ∧
    ((handleSubmitResponse s o).2.filter isSubmitAct).length = 0 ∧
    submitResponseApi r sid = Except.error "No response provided" := by
  refine ⟨?_, ?_, ?_, ?_⟩ <;>
    simp [handleSubmitResponse, submitResponseApi, h, hr, isSubmitAct]

theorem c9_witness :
    (handleSubmitResponse { mountVI with transcript := "   " }
        (SubmitOutcome.payload 5 none false)).2
      = [VIAction.notifyError "Please provide a response"] ∧
    submitResponseApi "  " "abc" = Except.error "No response provided" :=
  ⟨(c9_empty_submit { mountVI with transcript := "   " }
      (SubmitOutcome.payload 5 none false) "  " "abc"
      (by decide) (by decide)).2.1,
   (c9_empty_submit { mountVI with transcript := "   " }
      (SubmitOutcome.payload 5 none false) "  " "abc"
      (by decide) (by decide)).2.2.2⟩
